import Mathlib

/-!
Verification of `src/githubcity/GitHubCity.py` (GitHubCity).

Shallow embedding of the parts of `GitHubCity.py` that the claims are about:

* `validInterval` embeds `_validInterval` (lines 361-384): the recursive
  range partitioner.  Dates are embedded as `Nat` ordinals (days); the Python
  midpoint `start + (finish - start)/2` adds only whole days to a `date`
  (`date.__add__` uses `timedelta.days`), hence `start + (finish - start) / 2`
  on `Nat`.  The count probe `_readAPI(...)["total_count"]` is an oracle
  `cnt : Nat → Nat → Nat`.  The Python recursion has no termination guarantee,
  so the embedding is fuel-indexed; divergence = `none` for every fuel.
* `readAPI` embeds the retry loop of `_readAPI` (lines 196-233), recording a
  trace of requests and sleeps.  A response is `none` (HTTP 200) or
  `some reset` (rate-limited non-200 carrying `X-RateLimit-Reset`).  Python's
  `time.sleep` raises `ValueError` on a negative argument, embedded as the
  `valueError` outcome.
* `processUsersIter` embeds one iteration of the main loop of `_processUsers`
  (lines 278-288).
* `CityObj`, `init`, `readConfig`, `addUser`, `processAll` embed the object
  state, `__init__` (lines 70-133), `readConfig` (lines 146-160) and
  `_addUser` (lines 168-192).  Python attributes that `__init__`'s config
  path never creates (`_excluded`, `_excludedLocations`) are `Option` fields
  (`none` = attribute missing, access raises `AttributeError`).  The external
  `GitHubUser` module is abstracted: `getData`/`getLocation` become an oracle
  `loc : String → String`, and a ghost `fetches` log records each detail
  fetch.  `urllib.parse.quote` is an abstract parameter `quote`.
* `ConcState`, `addUserStep`, `runSchedule` embed two workers interleaving
  inside `_addUser` at source-statement granularity, to examine the lock
  discipline (the source releases `_lockReadAddUser` between the membership
  test and the `add`).
* `getSortUsers` embeds `getSortUsers` (lines 408-451).
-/

/-- Python `set.add`: add an element if not present (insertion order kept). -/
def setAdd (s : List String) (e : String) : List String :=
  if e ∈ s then s else s ++ [e]

/-- Fold `setAdd` over a list, as the Python `for e in ...: s.add(e)` loops. -/
def dedupAdd (s : List String) (xs : List String) : List String :=
  xs.foldl setAdd s

/-- Char-list helper: `pat` begins `hay`. -/
def chrPfx : List Char → List Char → Bool
  | [], _ => true
  | _ :: _, [] => false
  | a :: as, b :: bs => a == b && chrPfx as bs

/-- Char-list helper: `pat` occurs contiguously somewhere in `hay`. -/
def chrSub (pat : List Char) : List Char → Bool
  | [] => chrPfx pat []
  | b :: bs => chrPfx pat (b :: bs) || chrSub pat bs

/-- Python `pat in hay` on strings: substring containment. -/
def strContains (hay pat : String) : Bool :=
  chrSub pat.toList hay.toList

/-- Python `any(s in userLoc for s in excludedLocations)` (line 187). -/
def anyExcludedLoc (exl : List String) (userLoc : String) : Bool :=
  exl.any (fun sub => strContains userLoc sub)

/-- Embedding of `_validInterval` (lines 361-384), fuel-indexed.

Python:
```
data = self._readAPI(self._getURL(1, start, finish))
if data["total_count"] >= 1000:
    middle = start + (finish - start)/2
    self._validInterval(start, middle)
    self._validInterval(middle, finish)
else:
    self._intervals.append([start, finish])
```
The accumulating `_intervals.append` is returned as the list of leaves in
append (left-to-right) order.  `cnt` is the `total_count` oracle.  Fuel `0`
means the recursion did not finish within the given depth. -/
def validInterval (cnt : Nat → Nat → Nat) : Nat → Nat → Nat → Option (List (Nat × Nat))
  | 0, _, _ => none
  | fuel+1, start, finish =>
    if 1000 ≤ cnt start finish then
      match validInterval cnt fuel start (start + (finish - start) / 2),
            validInterval cnt fuel (start + (finish - start) / 2) finish with
      | some left, some right => some (left ++ right)
      | _, _ => none
    else
      some [(start, finish)]

/-- Predicate `chainFromB s L f`: the leaves `L`, read left to right, exactly
reconstruct the range `(s, f)`: the first leaf starts at `s`, each leaf
starts where the previous one ends, and the last leaf ends at `f`. -/
def chainFromB : Nat → List (Nat × Nat) → Nat → Bool
  | s, [], f => s == f
  | s, p :: rest, f => p.1 == s && chainFromB p.2 rest f

/-- Statement that `_validInterval` diverges on `(s, f)` under oracle `cnt`: no recursion
depth suffices to produce the partition list. -/
def partitionDiverges (cnt : Nat → Nat → Nat) (s f : Nat) : Prop :=
  ∀ fuel, validInterval cnt fuel s f = none

/-- A count oracle that reports `1000` matches for every range of at least
two days and `0` for shorter ranges. -/
def cntBig : Nat → Nat → Nat :=
  fun a b => if 2 ≤ b - a then 1000 else 0

/-- A count oracle constantly equal to `2500`. -/
def cntConst2500 : Nat → Nat → Nat := fun _ _ => 2500

/-- A count oracle constantly equal to `1000`. -/
def cntConst1000 : Nat → Nat → Nat := fun _ _ => 1000

/-- A count oracle constantly equal to `0`. -/
def cntConst0 : Nat → Nat → Nat := fun _ _ => 0

/-- An observable action of `_readAPI`: an HTTP request to a URL, or a call
to `time.sleep` with the given number of seconds. -/
inductive APIEvent where
  | request : String → APIEvent
  | sleep : Int → APIEvent
deriving Repr, DecidableEq

/-- Outcome of the `_readAPI` retry loop together with its event trace. -/
inductive APIResult where
  /-- A 200 response was obtained; the trace lists all requests and sleeps. -/
  | ok : List APIEvent → APIResult
  /-- Python `time.sleep` was called with the given negative argument and raised
  `ValueError`; the trace lists the events before the failing call. -/
  | valueError : List APIEvent → Int → APIResult
  /-- The fuel ran out before a 200 response. -/
  | fuelOut : APIResult
deriving Repr, DecidableEq

/-- Embedding of the retry loop of `_readAPI` (lines 213-233).

`resp n` describes the server's answer to the `n`-th request to `url`:
`none` for HTTP 200, `some reset` for a rate-limited non-200 response whose
`X-RateLimit-Reset` header is `reset`.  `now n` is the Unix time computed
while handling the `n`-th response:
```
while code != 200:
    req = urllib.request.Request(url, headers=hdr)   # identical url each time
    try: response = urllib.request.urlopen(req); code = response.code
    except urllib.error.URLError as e:
        reset = int(e.getheader("X-RateLimit-Reset"))
        now_sec = calendar.timegm(datetime.datetime.utcnow().utctimetuple())
        time.sleep(reset - now_sec)                  # no clamping
        code = e.code
```
`time.sleep` with a negative argument raises `ValueError`; that is the
`valueError` outcome. -/
def readAPI (url : String) (resp : Nat → Option Int) (now : Nat → Int) :
    Nat → Nat → List APIEvent → APIResult
  | 0, _, _ => .fuelOut
  | fuel+1, n, tr =>
    match resp n with
    | none => .ok (tr ++ [.request url])
    | some reset =>
      if reset - now n < 0 then
        .valueError (tr ++ [.request url]) (reset - now n)
      else
        readAPI url resp now fuel (n + 1)
          ((tr ++ [.request url]) ++ [.sleep (reset - now n)])

/-- A response schedule: the first request is rate-limited with reset time 5,
every later request succeeds. -/
def respPast : Nat → Option Int := fun n => if n = 0 then some 5 else none

/-- A clock that always reads 10 (so the reset time 5 lies in the past). -/
def nowPast : Nat → Int := fun _ => 10

/-- A response schedule: the first request is rate-limited with reset time 7,
every later request succeeds. -/
def respAhead : Nat → Option Int := fun n => if n = 0 then some 7 else none

/-- A clock that always reads 3 (so the reset time 7 lies in the future). -/
def nowEarly : Nat → Int := fun _ => 3

/-- Result of one iteration of the main loop of `_processUsers`. -/
inductive IterResult where
  /-- The worker thread returns (its loop ends). -/
  | exit : IterResult
  /-- The worker dequeued `u`, leaving the given queue contents, and goes on
  to `_addUser(u)`. -/
  | take : String → List String → IterResult
deriving Repr, DecidableEq

/-- Embedding of one iteration of the main loop of `_processUsers`
(lines 278-288), observing the producers-finished flag `fin` (`self._fin`)
and the queue contents `names`:
```
while not self._fin or not self._names.empty():
    try: new_user = self._names.get(False)
    except queue.Empty: return          # return even when _fin is False
    else: self._addUser(new_user)
```
If the loop guard fails (`fin` set and queue empty) the loop ends; if the
guard holds and the queue is empty, `get(False)` raises `queue.Empty` and
the worker returns; otherwise the head of the queue is dequeued. -/
def processUsersIter (fin : Bool) (names : List String) : IterResult :=
  if fin = false ∨ names ≠ [] then
    match names with
    | [] => IterResult.exit
    | u :: rest => IterResult.take u rest
  else IterResult.exit

/-- A Python exception raised by the embedded code. -/
inductive PyError where
  /-- Raised as `Exception("No GitHub ID inserted")` (line 91). -/
  | noGitHubID : PyError
  /-- Raised as `Exception("No GitHub Secret inserted")` (line 95). -/
  | noGitHubSecret : PyError
  /-- Python `AttributeError`: access to an attribute that was never assigned. -/
  | attributeError : PyError
deriving Repr, DecidableEq

/-- The persisted-config record passed to `readConfig` (section 6 of the
spec: `name, locations, excludedUsers[], excludedLocations[], intervals,
last_date`). -/
structure Config where
  name : String
  intervals : List (String × String)
  last_date : String
  locations : List String
  excludedUsers : List String
  excludedLocations : List String
deriving Repr, DecidableEq

/-- The attributes of a `GitHubCity` instance that the claims touch.
`excluded` and `excludedLocations` are `Option`s because `__init__`'s config
path never assigns them (`none` = attribute missing; using it raises
`AttributeError`).  `fetches` is a ghost log recording the argument of each
`GitHubUser(...).getData()` detail fetch; `dataUsers` holds the logins of
the appended `GitHubUser` records, in append order. -/
structure CityObj where
  city : Option String
  locations : List String
  excluded : Option (List String)
  excludedLocations : Option (List String)
  intervals : Option (List (String × String))
  lastDay : Option String
  myusers : List String
  dataUsers : List String
  fetches : List String
  urlLocations : String
  fin : Bool
deriving Repr, DecidableEq

/-- A fresh Python object before `__init__` runs: no attribute set. -/
def emptyObj : CityObj :=
  { city := none, locations := [], excluded := none, excludedLocations := none,
    intervals := none, lastDay := none, myusers := [], dataUsers := [],
    fetches := [], urlLocations := "", fin := false }

/-- Embedding of `_addLocationsToURL` (lines 139-143): rebuild
`_urlLocations` from `_locations`; `quote` stands for `urllib.parse.quote`. -/
def addLocationsToURL (quote : String → String) (self : CityObj) : CityObj :=
  { self with urlLocations :=
      self.locations.foldl (fun acc l => acc ++ "+location:" ++ quote l) "" }

/-- Embedding of a `for e in xs: attr.add(e)` loop over a possibly missing
set attribute (lines 152-158).  With an empty `xs` the loop body never runs,
so a missing attribute is not touched; otherwise a missing attribute raises
`AttributeError`. -/
def addAll (attr : Option (List String)) (xs : List String) :
    Except PyError (Option (List String)) :=
  match xs with
  | [] => .ok attr
  | _ :: _ =>
    match attr with
    | none => .error .attributeError
    | some s => .ok (some (dedupAdd s xs))

/-- Embedding of `readConfig` (lines 146-160): set `_city`, `_intervals`,
`_lastDay`, `_locations` from the config, add the config's excluded users
and locations into the (possibly never assigned) `_excluded` and
`_excludedLocations` sets, then rebuild the location URL fragment. -/
def readConfig (quote : String → String) (self : CityObj) (cfg : Config) :
    Except PyError CityObj :=
  let self := { self with
    city := some cfg.name
    intervals := some cfg.intervals
    lastDay := some cfg.last_date
    locations := cfg.locations }
  match addAll self.excluded cfg.excludedUsers with
  | .error e => .error e
  | .ok ex =>
    match addAll self.excludedLocations cfg.excludedLocations with
    | .error e => .error e
    | .ok exl =>
      .ok (addLocationsToURL quote
        { self with excluded := ex, excludedLocations := exl })

/-- Embedding of `__init__` (lines 70-133).  Checks the GitHub id and
secret, then either loads the persisted config via `readConfig` or
initialises `_city`, `_locations`, `_excluded`, `_excludedLocations` from the
arguments, and finally sets up `_myusers`, `_dataUsers`, `_fin` and the
location URL fragment.  An `.error` result is an exception escaping the
constructor. -/
def init (quote : String → String) (githubID githubSecret : Option String)
    (config : Option Config) (city : Option String)
    (locations : Option (List String))
    (excludedUsers excludedLocations : Option (List String)) :
    Except PyError CityObj :=
  match githubID with
  | none => .error .noGitHubID
  | some _ =>
  match githubSecret with
  | none => .error .noGitHubSecret
  | some _ =>
    let base : Except PyError CityObj :=
      match config with
      | some cfg => readConfig quote emptyObj cfg
      | none =>
        let self := { emptyObj with city := city }
        let locs := locations.getD []
        let locs := if locs = [] then
            (match city with | some c => [c] | none => []) else locs
        .ok { self with
          locations := locs
          excluded := some (dedupAdd [] (excludedUsers.getD []))
          excludedLocations := some (dedupAdd [] (excludedLocations.getD [])) }
    match base with
    | .error e => .error e
    | .ok self =>
      let self := { self with myusers := [], dataUsers := [], fin := false }
      .ok (addLocationsToURL quote self)

/-- Embedding of `_addUser` (lines 168-192) as executed by a single thread
(the interleaved two-thread version is `addUserStep` below):
```
if not new_user in self._myusers and not new_user in self._excluded:
    self._lockReadAddUser.release()
    self._myusers.add(new_user)
    myNewUser = GitHubUser(new_user); myNewUser.getData()
    userLoc = myNewUser.getLocation()
    if not any(s in userLoc for s in self._excludedLocations):
        self._dataUsers.append(myNewUser)
```
The `and` short-circuits, so `_excluded` is only read when the user is not
in `_myusers`; a missing `_excluded` or `_excludedLocations` attribute
raises `AttributeError`.  `loc u` is the location returned by the external
`GitHubUser(u).getLocation()` after `getData()`, and the fetch is recorded
in the ghost `fetches` log. -/
def addUser (loc : String → String) (self : CityObj) (u : String) :
    Except PyError CityObj :=
  if u ∈ self.myusers then .ok self
  else
    match self.excluded with
    | none => .error .attributeError
    | some ex =>
      if u ∈ ex then .ok self
      else
        let self := { self with
          myusers := setAdd self.myusers u
          fetches := self.fetches ++ [u] }
        match self.excludedLocations with
        | none => .error .attributeError
        | some exl =>
          if anyExcludedLoc exl (loc u) then .ok self
          else .ok { self with dataUsers := self.dataUsers ++ [u] }

/-- Feed a sequence of dequeued logins through `_addUser`, one at a time
(the worker pipeline with no interleaving inside `_addUser`). -/
def processAll (loc : String → String) (self : CityObj) :
    List String → Except PyError CityObj
  | [] => .ok self
  | u :: rest =>
    match addUser loc self u with
    | .error e => .error e
    | .ok self' => processAll loc self' rest

/-- Invariant of the sequential worker pipeline: the exclusion set attribute
holds `ex`, record and fetch logs are duplicate-free and only mention seen
users, and no excluded id has ever been marked seen. -/
def GoodState (ex : List String) (self : CityObj) : Prop :=
  self.excluded = some ex ∧
  self.dataUsers.Nodup ∧ self.fetches.Nodup ∧
  (∀ u, u ∈ self.dataUsers → u ∈ self.myusers) ∧
  (∀ u, u ∈ self.fetches → u ∈ self.myusers) ∧
  (∀ e, e ∈ ex → ¬ e ∈ self.myusers)

/-- Whether `config` is absent or has empty excluded lists (the cases where
`__init__` does not raise, given credentials). -/
def configEmptyExcl : Option Config → Prop
  | none => True
  | some c => c.excludedUsers = [] ∧ c.excludedLocations = []

/-- Equality of embedded Python outcomes is decidable (used to evaluate the
model on concrete inputs). -/
instance {a b : Type} [DecidableEq a] [DecidableEq b] :
    DecidableEq (Except a b) := fun x y =>
  match x, y with
  | .error u, .error v =>
    if h : u = v then isTrue (by rw [h])
    else isFalse (fun hc => h (by injection hc))
  | .ok u, .ok v =>
    if h : u = v then isTrue (by rw [h])
    else isFalse (fun hc => h (by injection hc))
  | .error _, .ok _ => isFalse (fun hc => Except.noConfusion hc)
  | .ok _, .error _ => isFalse (fun hc => Except.noConfusion hc)

/-- The identity in place of `urllib.parse.quote` (concrete instances). -/
def idQuote : String → String := fun s => s

/-- A detail-record oracle giving every user an empty location. -/
def locBlank : String → String := fun _ => ""

/-- A detail-record oracle giving every user the location "London". -/
def locLondon : String → String := fun _ => "London"

/-- Shared state of two worker threads interleaving inside `_addUser`
(lines 179-192) on the same instance.  `pcA`/`pcB` are the workers' program
counters over the source statements:
0 `_lockReadAddUser.acquire()`; 1 evaluate the membership condition;
2 `_lockReadAddUser.release()`; 3 `_myusers.add` (or skip when the condition
was false); 4 `getData()` detail fetch; 5 location test and
`_dataUsers.append`; 6 done.  `condA`/`condB` store each worker's evaluated
condition. -/
structure ConcState where
  lock : Bool
  myusers : List String
  dataUsers : List String
  fetches : List String
  pcA : Nat
  pcB : Nat
  condA : Bool
  condB : Bool
deriving Repr, DecidableEq

/-- Set the program counter of worker `w` (`false` = A, `true` = B). -/
def setPc (w : Bool) (pc : Nat) (st : ConcState) : ConcState :=
  if w then { st with pcB := pc } else { st with pcA := pc }

/-- Store the evaluated condition of worker `w`. -/
def setCond (w : Bool) (c : Bool) (st : ConcState) : ConcState :=
  if w then { st with condB := c } else { st with condA := c }

/-- One atomic step of worker `w` executing `_addUser` on the shared state,
at the granularity of the source statements (see `ConcState`).  A worker at
statement 0 blocks (no state change) while the lock is held.  The lock is
released at statement 2 — before the `add` at statement 3, exactly as in the
source. -/
def addUserStep (ex exl : List String) (loc : String → String)
    (uA uB : String) (st : ConcState) (w : Bool) : ConcState :=
  let pc := if w then st.pcB else st.pcA
  let u := if w then uB else uA
  match pc with
  | 0 => if st.lock then st else setPc w 1 { st with lock := true }
  | 1 => setPc w 2 (setCond w (decide (¬ u ∈ st.myusers ∧ ¬ u ∈ ex)) st)
  | 2 => setPc w 3 { st with lock := false }
  | 3 =>
    if (if w then st.condB else st.condA) then
      setPc w 4 { st with myusers := setAdd st.myusers u }
    else setPc w 6 st
  | 4 => setPc w 5 { st with fetches := st.fetches ++ [u] }
  | 5 =>
    if anyExcludedLoc exl (loc u) then setPc w 6 st
    else setPc w 6 { st with dataUsers := st.dataUsers ++ [u] }
  | _ => st

/-- The shared state before either worker has started: lock free, no users
seen, both workers at statement 0. -/
def initConc : ConcState :=
  { lock := false, myusers := [], dataUsers := [], fetches := [],
    pcA := 0, pcB := 0, condA := false, condB := false }

/-- Run the two workers under a schedule: each entry names the worker that
executes the next atomic step. -/
def runSchedule (ex exl : List String) (loc : String → String)
    (uA uB : String) (sched : List Bool) : ConcState :=
  sched.foldl (addUserStep ex exl loc uA uB) initConc

/-- The schedule in which worker A runs the locked section (acquire, test,
release), then worker B runs it, then each in turn adds, fetches and
appends. -/
def raceSched : List Bool :=
  [false, false, false, true, true, true,
   false, false, false, true, true, true]

/-- The detail record of one GitHub user, with the fields that
`getSortUsers` (lines 408-451) sorts by. -/
structure GHUser where
  contributions : Nat
  name : String
  lstreak : Nat
  cstreak : Nat
  language : String
  followers : Nat
  join : String
  organizations : Nat
  repositories : Nat
  stars : Nat
deriving Repr, DecidableEq

/-- Python `list.sort(key=key, reverse=True)` for a `Nat`-valued key: a
stable descending sort. -/
def sortRevByNat (key : GHUser → Nat) (l : List GHUser) : List GHUser :=
  l.mergeSort (fun a b => decide (key b ≤ key a))

/-- Python `list.sort(key=key, reverse=True)` for a `String`-valued key: a
stable descending sort. -/
def sortRevByStr (key : GHUser → String) (l : List GHUser) : List GHUser :=
  l.mergeSort (fun a b => !decide (key a < key b))

/-- Embedding of `getSortUsers` (lines 408-451): dispatch on the `order`
string, sort `_dataUsers` in place and return it, or return `None` (and
leave the list untouched) for an unrecognised value.  The result is the pair
(returned value, `_dataUsers` after the call).  Note the dispatch tests the
misspelling `"respositories"`. -/
def getSortUsers (self : List GHUser) (order : String) :
    Option (List GHUser) × List GHUser :=
  if order = "contributions" then
    let l := sortRevByNat (fun u => u.contributions) self; (some l, l)
  else if order = "name" then
    let l := sortRevByStr (fun u => u.name) self; (some l, l)
  else if order = "lstreak" then
    let l := sortRevByNat (fun u => u.lstreak) self; (some l, l)
  else if order = "cstreak" then
    let l := sortRevByNat (fun u => u.cstreak) self; (some l, l)
  else if order = "language" then
    let l := sortRevByStr (fun u => u.language) self; (some l, l)
  else if order = "followers" then
    let l := sortRevByNat (fun u => u.followers) self; (some l, l)
  else if order = "join" then
    let l := sortRevByStr (fun u => u.join) self; (some l, l)
  else if order = "organizations" then
    let l := sortRevByNat (fun u => u.organizations) self; (some l, l)
  else if order = "respositories" then
    let l := sortRevByNat (fun u => u.repositories) self; (some l, l)
  else if order = "stars" then
    let l := sortRevByNat (fun u => u.stars) self; (some l, l)
  else (none, self)

/-- A fresh instance whose id-exclusion set is the singleton "c". -/
def stExcl : CityObj :=
  { emptyObj with excluded := some ["c"], excludedLocations := some [] }

/-- The state after `stExcl` processes the sequence a, b, a, c. -/
def stExclFinal : CityObj :=
  { emptyObj with
    excluded := some ["c"]
    excludedLocations := some []
    myusers := ["a", "b"]
    dataUsers := ["a", "b"]
    fetches := ["a", "b"] }

/-- A fresh instance whose location-exclusion set is the singleton
"London". -/
def stLoc : CityObj :=
  { emptyObj with excluded := some [], excludedLocations := some ["London"] }

/-- The state after `stLoc` processes one user whose location is London. -/
def stLocFinal : CityObj :=
  { emptyObj with
    excluded := some []
    excludedLocations := some ["London"]
    myusers := ["bob"]
    fetches := ["bob"] }

/-- A persisted config whose excluded-users list is non-empty. -/
def cfgNE : Config :=
  { name := "n", intervals := [], last_date := "d", locations := ["L"],
    excludedUsers := ["x"], excludedLocations := [] }

/-- A persisted config with empty excluded lists. -/
def cfgE : Config :=
  { name := "n", intervals := [], last_date := "d", locations := ["L"],
    excludedUsers := [], excludedLocations := [] }

/-- The instance that loading `cfgE` constructs: note `excluded` and
`excludedLocations` were never assigned. -/
def cfgEObj : CityObj :=
  { city := some "n", locations := ["L"], excluded := none,
    excludedLocations := none, intervals := some [], lastDay := some "d",
    myusers := [], dataUsers := [], fetches := [], 
    urlLocations := "+location:L", fin := false }

theorem validInterval_succ (cnt : Nat → Nat → Nat) (fuel s f : Nat) :
    validInterval cnt (fuel + 1) s f =
      if 1000 ≤ cnt s f then
        match validInterval cnt fuel s (s + (f - s) / 2),
              validInterval cnt fuel (s + (f - s) / 2) f with
        | some left, some right => some (left ++ right)
        | _, _ => none
      else some [(s, f)] := rfl

theorem chainFromB_append {m f : Nat} {L₂ : List (Nat × Nat)}
    (h2 : chainFromB m L₂ f = true) :
    ∀ {s : Nat} {L₁ : List (Nat × Nat)}, chainFromB s L₁ m = true →
      chainFromB s (L₁ ++ L₂) f = true := by
  intro s L₁
  induction L₁ generalizing s with
  | nil =>
    intro h1
    simp only [chainFromB, beq_iff_eq] at h1
    subst h1
    simpa using h2
  | cons p rest ih =>
    intro h1
    simp only [chainFromB, Bool.and_eq_true, beq_iff_eq] at h1 ⊢
    exact ⟨h1.1, ih h1.2⟩

theorem validInterval_sound (cnt : Nat → Nat → Nat)
    (hsmall : ∀ a b, b - a ≤ 1 → cnt a b < 1000) :
    ∀ d s f, s ≤ f → f - s ≤ d →
      ∃ L, validInterval cnt (d + 1) s f = some L ∧ L ≠ [] ∧
        chainFromB s L f = true ∧ ∀ p ∈ L, cnt p.1 p.2 < 1000 := by
  intro d
  induction d with
  | zero =>
    intro s f hsf hd
    have hlt := hsmall s f (by omega)
    refine ⟨[(s, f)], ?_, by simp, ?_, ?_⟩
    · rw [validInterval_succ, if_neg (by omega)]
    · simp [chainFromB]
    · intro p hp
      simp only [List.mem_singleton] at hp
      subst hp
      exact hlt
  | succ k ih =>
    intro s f hsf hd
    by_cases hcap : 1000 ≤ cnt s f
    · have h2 : 2 ≤ f - s := by
        by_contra hlt
        have := hsmall s f (by omega)
        omega
      obtain ⟨L₁, hL₁, hne₁, hc₁, hall₁⟩ :=
        ih s (s + (f - s) / 2) (by omega) (by omega)
      obtain ⟨L₂, hL₂, hne₂, hc₂, hall₂⟩ :=
        ih (s + (f - s) / 2) f (by omega) (by omega)
      refine ⟨L₁ ++ L₂, ?_, by simp [hne₁], chainFromB_append hc₂ hc₁, ?_⟩
      · rw [validInterval_succ, if_pos hcap, hL₁, hL₂]
      · intro p hp
        rcases List.mem_append.mp hp with h | h
        · exact hall₁ p h
        · exact hall₂ p h
    · refine ⟨[(s, f)], ?_, by simp, ?_, ?_⟩
      · rw [validInterval_succ, if_neg hcap]
      · simp [chainFromB]
      · intro p hp
        simp only [List.mem_singleton] at hp
        subst hp
        show cnt s f < 1000
        omega

theorem validInterval_self_none {c : Nat} (hc : 1000 ≤ c) (s : Nat) :
    ∀ fuel, validInterval (fun _ _ => c) fuel s s = none := by
  intro fuel
  induction fuel with
  | zero => rfl
  | succ n ih =>
    rw [validInterval_succ, if_pos hc]
    simp only [Nat.sub_self, Nat.zero_div, Nat.add_zero]
    rw [ih]

/-- C1: for a Range with `probedCount ≥ CAP` (CAP = 1000), provided every
sub-range of length at most one day probes below CAP (which is what makes the
source recursion terminate), `_validInterval` produces a non-empty ordered
sequence of leaves that, concatenated left to right, reconstruct the range
exactly — each leaf starts where the previous one ends, the first starts at
`s` and the last ends at `f` — and every leaf probes below CAP. -/
theorem c1_partition_reconstructs (cnt : Nat → Nat → Nat) (s f : Nat)
    (hsf : s ≤ f) (hcap : 1000 ≤ cnt s f)
    (hsmall : ∀ a b, b - a ≤ 1 → cnt a b < 1000) :
    ∃ L, validInterval cnt (f - s + 1) s f = some L ∧ L ≠ [] ∧
      chainFromB s L f = true ∧ ∀ p ∈ L, cnt p.1 p.2 < 1000 :=
  validInterval_sound cnt hsmall (f - s) s f hsf (Nat.le_refl _)

/-- Witness for C1: the oracle `cntBig` reports 1000 for the four-day range
`(0, 4)` and below CAP for every range of length at most one day, and the
partitioner then produces a valid leaf decomposition of `(0, 4)`. -/
theorem c1_partition_reconstructs_witness :
    ∃ L, validInterval cntBig (4 - 0 + 1) 0 4 = some L ∧ L ≠ [] ∧
      chainFromB 0 L 4 = true ∧ ∀ p ∈ L, cntBig p.1 p.2 < 1000 :=
  c1_partition_reconstructs cntBig 0 4 (by decide) (by decide)
    (by
      intro a b h
      simp only [cntBig]
      split <;> omega)

/-- C1 counterexample: the claim as stated fails on the code.  For the
degenerate Range `(0, 0)` under an oracle reporting 2500 matches (so
`probedCount ≥ CAP` holds), `_validInterval` never produces any partition:
the midpoint of the range is the range's own start, so the recursion calls
itself on the same range forever, and no recursion depth returns a result. -/
theorem c1_degenerate_no_partition :
    1000 ≤ cntConst2500 0 0 ∧ partitionDiverges cntConst2500 0 0 :=
  ⟨by decide, validInterval_self_none (by decide) 0⟩

/-- C2: the code does not treat a zero-length range as an always-accepted
leaf.  When the probed count of the degenerate range `(5, 5)` is 1000
(≥ CAP), `_validInterval` recurses forever (no recursion depth suffices),
whereas with a probed count below CAP it does accept the range as a single
leaf in one step.  This contradicts the claimed "terminates in one step
regardless of the probed count". -/
theorem c2_degenerate_diverges :
    partitionDiverges cntConst1000 5 5 ∧
    validInterval cntConst0 1 5 5 = some [(5, 5)] :=
  ⟨validInterval_self_none (by decide) 5, rfl⟩

/-- C4 (amended): for a rate-limited response carrying reset timestamp
`reset` with `reset ≥ now`, the retry loop sleeps exactly `reset - now`
seconds — which under this hypothesis equals `max 0 (reset - now)` — and
then continues the loop, re-issuing the request with the identical `url`. -/
theorem c4_rate_limit_wait (url : String) (resp : Nat → Option Int)
    (now : Nat → Int) (fuel n : Nat) (tr : List APIEvent) (reset : Int)
    (hr : resp n = some reset) (hge : now n ≤ reset) :
    readAPI url resp now (fuel + 1) n tr =
      readAPI url resp now fuel (n + 1)
        ((tr ++ [.request url]) ++ [.sleep (reset - now n)]) ∧
    reset - now n = max 0 (reset - now n) := by
  constructor
  · simp only [readAPI, hr]
    rw [if_neg (by omega)]
  · omega

/-- Witness for C4 (amended): first response rate-limited with reset 7 and
clock 3; the loop records the request, sleeps 4 seconds, and retries the
same URL. -/
theorem c4_rate_limit_wait_witness :
    readAPI "u" respAhead nowEarly 2 0 [] =
      readAPI "u" respAhead nowEarly 1 1
        (([] ++ [APIEvent.request "u"]) ++ [APIEvent.sleep (7 - nowEarly 0)]) ∧
    7 - nowEarly 0 = max 0 (7 - nowEarly 0) :=
  c4_rate_limit_wait "u" respAhead nowEarly 1 0 [] 7 rfl (by decide)

/-- C4 counterexample: the wait is not clamped to be non-negative.  For a
rate-limited response whose reset timestamp 5 lies before the current clock
10, the claim says the client sleeps `max 0 (5 - 10) = 0` seconds and then
retries; the code instead calls `time.sleep(-5)`, which raises `ValueError`,
so no sleep and no retry happen. -/
theorem c4_negative_wait_raises :
    readAPI "u" respPast nowPast 10 0 [] =
      APIResult.valueError [APIEvent.request "u"] (-5) := rfl

/-- C5: the consume loop of `_processUsers` does not keep polling when the
queue is momentarily empty while `_fin` is still false: `get(False)` raises
`queue.Empty` and the handler returns, so the worker exits with producers
unfinished.  (With a non-empty queue it dequeues the head, and with `_fin`
set and an empty queue it exits as the claim says.) -/
theorem c5_exits_with_producers_unfinished :
    processUsersIter false [] = IterResult.exit ∧
    processUsersIter false ["a"] = IterResult.take "a" [] ∧
    processUsersIter true [] = IterResult.exit :=
  ⟨rfl, rfl, rfl⟩

theorem addUser_good {ex : List String} {loc : String → String}
    {self self' : CityObj} {u : String}
    (h : GoodState ex self) (hs : addUser loc self u = Except.ok self') :
    GoodState ex self' := by
  obtain ⟨hex, hnd, hnf, hdm, hfm, hexm⟩ := h
  unfold addUser at hs
  by_cases hu : u ∈ self.myusers
  · rw [if_pos hu] at hs
    injection hs with h'
    subst h'
    exact ⟨hex, hnd, hnf, hdm, hfm, hexm⟩
  · rw [if_neg hu, hex] at hs
    dsimp only at hs
    by_cases hue : u ∈ ex
    · rw [if_pos hue] at hs
      injection hs with h'
      subst h'
      exact ⟨hex, hnd, hnf, hdm, hfm, hexm⟩
    · rw [if_neg hue] at hs
      cases hexl : self.excludedLocations with
      | none => rw [hexl] at hs; simp at hs
      | some exl =>
        rw [hexl] at hs
        dsimp only at hs
        have hmy : setAdd self.myusers u = self.myusers ++ [u] := by
          unfold setAdd
          rw [if_neg hu]
        have hfnew : ¬ u ∈ self.fetches := fun hc => hu (hfm u hc)
        have hdnew : ¬ u ∈ self.dataUsers := fun hc => hu (hdm u hc)
        by_cases hl : anyExcludedLoc exl (loc u) = true
        · rw [if_pos hl] at hs
          injection hs with h'
          subst h'
          refine ⟨rfl, hnd, ?_, ?_, ?_, ?_⟩
          · simpa [List.nodup_append] using ⟨hnf, hfnew⟩
          · intro v hv
            simp only [hmy, List.mem_append]
            exact Or.inl (hdm v hv)
          · intro v hv
            simp only [List.mem_append, List.mem_singleton] at hv
            simp only [hmy, List.mem_append, List.mem_singleton]
            rcases hv with hv | hv
            · exact Or.inl (hfm v hv)
            · exact Or.inr hv
          · intro e he
            simp only [hmy, List.mem_append, List.mem_singleton]
            rintro (hc | rfl)
            · exact hexm e he hc
            · exact hue he
        · rw [if_neg hl] at hs
          injection hs with h'
          subst h'
          refine ⟨rfl, ?_, ?_, ?_, ?_, ?_⟩
          · simpa [List.nodup_append] using ⟨hnd, hdnew⟩
          · simpa [List.nodup_append] using ⟨hnf, hfnew⟩
          · intro v hv
            simp only [List.mem_append, List.mem_singleton] at hv
            simp only [hmy, List.mem_append, List.mem_singleton]
            rcases hv with hv | hv
            · exact Or.inl (hdm v hv)
            · exact Or.inr hv
          · intro v hv
            simp only [List.mem_append, List.mem_singleton] at hv
            simp only [hmy, List.mem_append, List.mem_singleton]
            rcases hv with hv | hv
            · exact Or.inl (hfm v hv)
            · exact Or.inr hv
          · intro e he
            simp only [hmy, List.mem_append, List.mem_singleton]
            rintro (hc | rfl)
            · exact hexm e he hc
            · exact hue he

theorem processAll_good {ex : List String} {loc : String → String}
    {self self' : CityObj} {us : List String}
    (h : GoodState ex self) (hs : processAll loc self us = Except.ok self') :
    GoodState ex self' := by
  induction us generalizing self with
  | nil =>
    unfold processAll at hs
    injection hs with h'
    subst h'
    exact h
  | cons u rest ih =>
    unfold processAll at hs
    cases ha : addUser loc self u with
    | error e => rw [ha] at hs; simp at hs
    | ok mid =>
      rw [ha] at hs
      exact ih (addUser_good h ha) hs

/-- C3: the membership test and the seen-set add are not in one critical
section — `_addUser` releases `_lockReadAddUser` (line 181) before
`_myusers.add` (line 182).  Two workers given the same unseen id "a" can
therefore both run the locked test before either adds, and both proceed to
enrichment: under `raceSched` the detail fetch happens twice for one id
(`fetches = ["a", "a"]` while `myusers = ["a"]`), and a duplicate record is
appended. -/
theorem c3_lock_released_between_test_and_add :
    (runSchedule [] [] locBlank "a" "a" raceSched).fetches = ["a", "a"] ∧
    (runSchedule [] [] locBlank "a" "a" raceSched).myusers = ["a"] ∧
    (runSchedule [] [] locBlank "a" "a" raceSched).dataUsers.length = 2 :=
  ⟨rfl, rfl, rfl⟩

/-- C6 counterexample: the pipeline does not guarantee at most one record
per distinct id.  Two workers dequeue the same id "a" (a duplicate across
partitions); under the interleaving `raceSched`, allowed by the code because
the lock is released between the membership test and the add, the final
result list contains the record for "a" twice. -/
theorem c6_duplicate_record_cex :
    (runSchedule [] [] locBlank "a" "a" raceSched).dataUsers = ["a", "a"] ∧
    ¬ (runSchedule [] [] locBlank "a" "a" raceSched).dataUsers.Nodup :=
  ⟨rfl, by decide⟩

/-- C6 (amended): when the dequeued ids are processed without interleaving
inside `_addUser` (e.g. by a single worker), the final result list contains
at most one record per distinct id, and an id in the exclusion set is never
fetched and never appears in the result list. -/
theorem c6_sequential_dedup (loc : String → String) (ex : List String)
    (self self' : CityObj) (us : List String)
    (h : GoodState ex self) (hs : processAll loc self us = Except.ok self') :
    self'.dataUsers.Nodup ∧
    ∀ e, e ∈ ex → ¬ e ∈ self'.dataUsers ∧ ¬ e ∈ self'.fetches := by
  obtain ⟨_, hnd, _, hdm, hfm, hexm⟩ := processAll_good h hs
  exact ⟨hnd, fun e he =>
    ⟨fun hc => hexm e he (hdm e hc), fun hc => hexm e he (hfm e hc)⟩⟩

/-- Witness for C6 (amended): feeding a, b, a, c with exclusion set c yields
the records a, b once each, and c is neither fetched nor recorded. -/
theorem c6_sequential_dedup_witness :
    stExclFinal.dataUsers.Nodup ∧
    ¬ "c" ∈ stExclFinal.dataUsers ∧ ¬ "c" ∈ stExclFinal.fetches :=
  ⟨(c6_sequential_dedup locBlank ["c"] stExcl stExclFinal ["a", "b", "a", "c"]
      (by unfold GoodState; decide) (by decide)).1,
   (c6_sequential_dedup locBlank ["c"] stExcl stExclFinal ["a", "b", "a", "c"]
      (by unfold GoodState; decide) (by decide)).2 "c" (by decide)⟩

/-- C8: if the fetched location of an unseen, non-excluded id matches an
excluded-location substring, `_addUser` leaves `_dataUsers` unchanged (no
record is ever appended for that id), still marks the id seen, records
exactly one detail fetch, and a second occurrence of the id is a no-op (no
second enrichment). -/
theorem c8_location_excluded (loc : String → String) (self self' : CityObj)
    (ex exl : List String) (u : String)
    (hex : self.excluded = some ex) (hexl : self.excludedLocations = some exl)
    (hseen : ¬ u ∈ self.myusers) (hnex : ¬ u ∈ ex)
    (hloc : anyExcludedLoc exl (loc u) = true)
    (hs : addUser loc self u = Except.ok self') :
    self'.dataUsers = self.dataUsers ∧ u ∈ self'.myusers ∧
    self'.fetches = self.fetches ++ [u] ∧
    addUser loc self' u = Except.ok self' := by
  unfold addUser at hs
  rw [if_neg hseen, hex] at hs
  dsimp only at hs
  rw [if_neg hnex, hexl] at hs
  dsimp only at hs
  rw [if_pos hloc] at hs
  injection hs with h'
  subst h'
  have hmem : u ∈ setAdd self.myusers u := by
    unfold setAdd
    rw [if_neg hseen]
    simp
  refine ⟨rfl, hmem, rfl, ?_⟩
  unfold addUser
  rw [if_pos hmem]

/-- Witness for C8: the user "bob" located in London is fetched once, never
recorded, marked seen, and reprocessing "bob" changes nothing. -/
theorem c8_location_excluded_witness :
    stLocFinal.dataUsers = stLoc.dataUsers ∧ "bob" ∈ stLocFinal.myusers ∧
    stLocFinal.fetches = stLoc.fetches ++ ["bob"] ∧
    addUser locLondon stLocFinal "bob" = Except.ok stLocFinal :=
  c8_location_excluded locLondon stLoc stLocFinal [] ["London"] "bob"
    rfl rfl (by decide) (by decide) (by decide) (by decide)

theorem readConfig_emptyObj (quote : String → String) (cfg : Config) :
    readConfig quote emptyObj cfg =
      if cfg.excludedUsers = [] ∧ cfg.excludedLocations = [] then
        Except.ok (addLocationsToURL quote
          { city := some cfg.name
            locations := cfg.locations
            excluded := none
            excludedLocations := none
            intervals := some cfg.intervals
            lastDay := some cfg.last_date
            myusers := []
            dataUsers := []
            fetches := []
            urlLocations := ""
            fin := false })
      else Except.error PyError.attributeError := by
  simp only [readConfig, emptyObj]
  cases hu : cfg.excludedUsers with
  | nil =>
    cases hl : cfg.excludedLocations with
    | nil => simp [addAll]
    | cons e es => simp [addAll]
  | cons e es =>
    cases hl : cfg.excludedLocations with
    | nil => simp [addAll]
    | cons f fs => simp [addAll]

/-- C7 counterexample: an empty SearchTarget does not raise.  With both
credentials present and no city, no locations and no config, the
constructor succeeds, producing an instance whose location list is empty —
whereas the claim says construction must raise exactly then. -/
theorem c7_empty_target_no_raise :
    init idQuote (some "id") (some "secret") none none none none none =
      Except.ok ({ emptyObj with
        excluded := some []
        excludedLocations := some [] }) ∧
    ({ emptyObj with
        excluded := some []
        excludedLocations := some [] } : CityObj).locations = [] :=
  ⟨by decide, rfl⟩

/-- C7 (amended): the constructor raises exactly when the GitHub application
id is missing, the application secret is missing, or a persisted config with
a non-empty excludedUsers or excludedLocations list is supplied (an
`AttributeError`, see C9); an empty SearchTarget never raises — construction
then succeeds with an empty location filter. -/
theorem c7_raise_characterization (quote : String → String)
    (githubID githubSecret : Option String) (config : Option Config)
    (city : Option String) (locations : Option (List String))
    (excludedUsers excludedLocations : Option (List String)) :
    (∃ st, init quote githubID githubSecret config city locations
        excludedUsers excludedLocations = Except.ok st) ↔
      (githubID ≠ none ∧ githubSecret ≠ none ∧ configEmptyExcl config) := by
  cases githubID with
  | none => simp [init]
  | some gid =>
    cases githubSecret with
    | none => simp [init]
    | some gsec =>
      cases config with
      | none =>
        simp [init, configEmptyExcl]
      | some cfg =>
        simp only [init, readConfig_emptyObj, configEmptyExcl]
        by_cases hc : cfg.excludedUsers = [] ∧ cfg.excludedLocations = []
        · rw [if_pos hc]
          simp [hc]
        · rw [if_neg hc]
          simp only [ne_eq, reduceCtorEq, not_false_eq_true, true_and]
          constructor
          · rintro ⟨st, hst⟩
            simp at hst
          · intro h
            exact absurd h hc

/-- C9: the resumable-crawl load path is broken.  With credentials present,
constructing with a persisted config whose excludedUsers or
excludedLocations list is non-empty raises `AttributeError`, because
`readConfig` adds into `self._excluded` / `self._excludedLocations` before
either attribute exists; and even when both lists are empty (construction
succeeds), the attributes are never created, so every later `_addUser` call
on such an instance raises `AttributeError`. -/
theorem c9_config_attribute_error (quote loc : String → String)
    (cfg : Config) (gid gsec : String) :
    (cfg.excludedUsers ≠ [] ∨ cfg.excludedLocations ≠ [] →
      init quote (some gid) (some gsec) (some cfg) none none none none =
        Except.error PyError.attributeError) ∧
    (∀ st u, init quote (some gid) (some gsec) (some cfg) none none none none =
        Except.ok st → addUser loc st u = Except.error PyError.attributeError) := by
  constructor
  · intro h
    have hc : ¬ (cfg.excludedUsers = [] ∧ cfg.excludedLocations = []) := by
      tauto
    simp only [init, readConfig_emptyObj]
    rw [if_neg hc]
  · intro st u hok
    simp only [init, readConfig_emptyObj] at hok
    by_cases hc : cfg.excludedUsers = [] ∧ cfg.excludedLocations = []
    · rw [if_pos hc] at hok
      dsimp only at hok
      injection hok with hok
      subst hok
      simp [addUser, addLocationsToURL]
    · rw [if_neg hc] at hok
      simp at hok

/-- Witness for C9: loading a config with excluded user "x" raises
`AttributeError` at construction, and on the instance loaded from a config
with empty excluded lists, `_addUser("alice")` raises `AttributeError`. -/
theorem c9_config_attribute_error_witness :
    init idQuote (some "i") (some "s") (some cfgNE) none none none none =
      Except.error PyError.attributeError ∧
    addUser locBlank cfgEObj "alice" = Except.error PyError.attributeError :=
  ⟨(c9_config_attribute_error idQuote locBlank cfgNE "i" "s").1
      (Or.inl (by decide)),
   (c9_config_attribute_error idQuote locBlank cfgE "i" "s").2 cfgEObj "alice"
      (by decide)⟩

/-- C10: `getSortUsers("repositories")` returns `None` and leaves the stored
user list unchanged, because the dispatch only recognises the misspelling
"respositories" for sorting by repository count (which does sort and return
the list). -/
theorem c10_repositories_misspelled (us : List GHUser) :
    getSortUsers us "repositories" = (none, us) ∧
    (getSortUsers us "respositories").1 =
      some (sortRevByNat (fun u => u.repositories) us) :=
  ⟨rfl, rfl⟩
